import Mathlib

/-!
Shallow embedding of `src/nibabies/workflows/anatomical/preproc.py`
(`init_anat_template_wf`): the anatomical-template graph builder.

The builder constructs a workflow graph (nodes, edges, statically bound
inputs) from the arguments `contrast, num_files, omp_nthreads, longitudinal,
bspline_fitting_distance, sloppy, name`.  Nodes carry the interface
configuration literally as written in the source; edges record source node,
source port (possibly with a connection function applied along the edge),
destination node and destination port.  The workflow description string
`wf.__desc__` (which depends on an external FreeSurfer version lookup and
is pure reporting text, not graph structure) is not modelled.
-/

namespace Preproc

/-- Interface configuration of each node, with the scalar configuration
exactly as constructed in the source file.  `convergence_threshold` of the
N4 node is the literal `1e-7`, kept as the pair (mantissa, negative decimal
exponent) = (1, 7) to avoid floating point. -/
inductive Interface where
  | identityInterface (fields : List String)
  | templateDimensions
  | conform
  | select (index : List Nat)
  | ltaConvert (in_lta : String) (out_lta : Bool)
  | intensityClip (p_min : Nat)
  | n4BiasFieldCorrection (dimension : Nat) (save_bias : Bool) (copy_header : Bool)
      (n_iterations : List Nat) (convergence_threshold : Nat × Nat)
      (shrink_factor : Nat) (bspline_fitting_distance : Int)
  | structuralReference (auto_detect_sensitivity : Bool) (initial_timepoint : Nat)
      (intensity_scaling : Bool) (subsample_threshold : Nat)
      (fixed_timepoint : Bool) (no_iteration : Bool) (transform_outputs : Bool)
  | reorient
  | mergeN (numinputs : Nat)
  | concatenateXFMs (inverse : Bool)
  deriving Repr, DecidableEq

/-- The source endpoint of an edge: either a plain output port, or an output
port with a connection function applied along the edge (the source connects
tuples `(('out_file', _set_threads, omp_nthreads), ...)` and
`(('out_file', add_suffix, '_template'), ...)`). -/
inductive SrcPort where
  | port (name : String)
  | viaSetThreads (name : String) (maximum : Int)
  | viaAddSuffix (name : String) (sfx : String)
  deriving Repr, DecidableEq

/-- The output-port name an edge source reads from. -/
def SrcPort.portName : SrcPort → String
  | .port n => n
  | .viaSetThreads n _ => n
  | .viaAddSuffix n _ => n

/-- A directed edge of the workflow graph, as recorded by `wf.connect`. -/
structure Edge where
  src : String
  srcPort : SrcPort
  dst : String
  dstPort : String
  deriving Repr, DecidableEq

/-- A node of the workflow graph: interface configuration plus the
engine-level options given at node construction (`pe.Node` / `pe.MapNode`). -/
structure WNode where
  name : String
  iface : Interface
  isMapNode : Bool := false
  iterfield : List String := []
  mem_gb : Option Int := none
  n_procs : Option Nat := none
  run_without_submitting : Bool := false
  deriving Repr, DecidableEq

/-- A statically bound node input (`node.inputs.<port> = value`); the only
one in the source binds a list of file paths. -/
structure StaticInput where
  node : String
  port : String
  value : List String
  deriving Repr, DecidableEq

/-- The constructed workflow graph. -/
structure Graph where
  name : String
  nodes : List WNode
  edges : List Edge
  staticInputs : List StaticInput
  deriving Repr, DecidableEq

/-- Arguments of `init_anat_template_wf` (all keyword-only in the source),
with the Python defaults. -/
structure Args where
  contrast : String
  num_files : Int
  omp_nthreads : Int
  longitudinal : Bool := false
  bspline_fitting_distance : Int := 200
  sloppy : Bool := false
  name : String := "anat_template_wf"
  deriving Repr, DecidableEq

/-- Modelled from the spec: `identity_transform_path(package_data_root)`
returns the path of a bundled package data resource
(`nibabies.utils.misc.get_file` is not under `src/`; the spec describes it
as a package-resource locator for the bundled identity transform). -/
def get_file (pkg : String) (path : String) : String :=
  pkg ++ "/" ++ path

/-- `_set_threads(in_list, maximum) = min(len(in_list), maximum)` — the
inner function defined in the source and applied along the
`anat_conform → anat_merge` edge. -/
def _set_threads (in_list : List String) (maximum : Int) : Int :=
  min (in_list.length : Int) maximum

/-- Value computed at run time by a connection function applied along an
edge, when the source port carries a list of files (`none` for a plain
port or a non-numeric connection function). -/
def SrcPort.applyToList : SrcPort → List String → Option Int
  | .viaSetThreads _ m, xs => some (_set_threads xs m)
  | _, _ => none

/-- `inputnode` (source line 81). -/
def inputnode : WNode :=
  { name := "inputnode", iface := .identityInterface ["anat_files"] }

/-- `outputnode` (source lines 82–85): the declared fields are exactly
`["out_file", "valid_list", "realign_xfms", "out_report"]`. -/
def outputnode : WNode :=
  { name := "outputnode",
    iface := .identityInterface ["out_file", "valid_list", "realign_xfms", "out_report"] }

/-- `anat_ref_dimensions` (source line 88). -/
def anat_ref_dimensions : WNode :=
  { name := "anat_ref_dimensions", iface := .templateDimensions }

/-- `anat_conform` (source line 89). -/
def anat_conform : WNode :=
  { name := "anat_conform", iface := .conform, isMapNode := true, iterfield := ["in_file"] }

/-- `get1st` (source line 104), only in the single-image branch. -/
def get1st : WNode :=
  { name := "get1st", iface := .select [0] }

/-- `anat_conform_xfm` (source lines 117–121). -/
def anat_conform_xfm : WNode :=
  { name := "anat_conform_xfm",
    iface := .ltaConvert "identity.nofile" true,
    isMapNode := true, iterfield := ["source_file", "target_file"] }

/-- `clip_preinu` (source line 127). -/
def clip_preinu : WNode :=
  { name := "clip_preinu", iface := .intensityClip 50,
    isMapNode := true, iterfield := ["in_file"] }

/-- `n4_correct` (source lines 128–141): `n_iterations = [50] * (5 - 2 * sloppy)`
(a Python `bool` multiplies as 0 or 1), and an explicit `n_procs=1`. -/
def n4_correct (sloppy : Bool) (bspline_fitting_distance : Int) : WNode :=
  { name := "n4_correct",
    iface := .n4BiasFieldCorrection 3 false true
      (List.replicate (5 - 2 * (if sloppy then 1 else 0)) 50) (1, 7)
      4 bspline_fitting_distance,
    isMapNode := true, iterfield := ["input_image"], n_procs := some 1 }

/-- `anat_merge` (source lines 143–155): `fixed_timepoint = not longitudinal`,
`no_iteration = not longitudinal`, `mem_gb = 2 * num_files - 1`. -/
def anat_merge (longitudinal : Bool) (num_files : Int) : WNode :=
  { name := "anat_merge",
    iface := .structuralReference true 1 true 200 (!longitudinal) (!longitudinal) true,
    mem_gb := some (2 * num_files - 1) }

/-- `anat_reorient` (source line 158). -/
def anat_reorient : WNode :=
  { name := "anat_reorient", iface := .reorient }

/-- `merge_xfm` (source lines 160–165). -/
def merge_xfm : WNode :=
  { name := "merge_xfm", iface := .mergeN 2,
    isMapNode := true, iterfield := ["in1", "in2"], run_without_submitting := true }

/-- `concat_xfms` (source lines 166–171). -/
def concat_xfms : WNode :=
  { name := "concat_xfms", iface := .concatenateXFMs true,
    isMapNode := true, iterfield := ["in_xfms"], run_without_submitting := true }

/-- The edges added by the first `wf.connect` block (source lines 92–100),
present in both branches. -/
def baseEdges : List Edge :=
  [ ⟨"inputnode", .port "anat_files", "anat_ref_dimensions", "t1w_list"⟩,
    ⟨"anat_ref_dimensions", .port "t1w_valid_list", "anat_conform", "in_file"⟩,
    ⟨"anat_ref_dimensions", .port "target_zooms", "anat_conform", "target_zooms"⟩,
    ⟨"anat_ref_dimensions", .port "target_shape", "anat_conform", "target_shape"⟩,
    ⟨"anat_ref_dimensions", .port "out_report", "outputnode", "out_report"⟩,
    ⟨"anat_ref_dimensions", .port "t1w_valid_list", "outputnode", "anat_valid_list"⟩ ]

/-- The edges added by the second `wf.connect` block of the single-image
branch (source lines 110–113). -/
def singleEdges : List Edge :=
  [ ⟨"anat_conform", .port "out_file", "get1st", "inlist"⟩,
    ⟨"get1st", .port "out", "outputnode", "anat_ref"⟩ ]

/-- The edges added by the `wf.connect` block of the multi-image branch
(source lines 177–194). -/
def multiEdges (omp_nthreads : Int) : List Edge :=
  [ ⟨"anat_ref_dimensions", .port "t1w_valid_list", "anat_conform_xfm", "source_file"⟩,
    ⟨"anat_conform", .port "out_file", "anat_conform_xfm", "target_file"⟩,
    ⟨"anat_conform", .port "out_file", "clip_preinu", "in_file"⟩,
    ⟨"anat_conform", .viaSetThreads "out_file" omp_nthreads, "anat_merge", "num_threads"⟩,
    ⟨"anat_conform", .viaAddSuffix "out_file" "_template", "anat_merge", "out_file"⟩,
    ⟨"clip_preinu", .port "out_file", "n4_correct", "input_image"⟩,
    ⟨"n4_correct", .port "output_image", "anat_merge", "in_files"⟩,
    ⟨"anat_merge", .port "out_file", "anat_reorient", "in_file"⟩,
    ⟨"anat_conform_xfm", .port "out_lta", "merge_xfm", "in1"⟩,
    ⟨"anat_merge", .port "transform_outputs", "merge_xfm", "in2"⟩,
    ⟨"merge_xfm", .port "out", "concat_xfms", "in_xfms"⟩,
    ⟨"anat_reorient", .port "out_file", "outputnode", "anat_ref"⟩,
    ⟨"concat_xfms", .port "out_xfm", "outputnode", "anat_realign_xfm"⟩ ]

/-- `init_anat_template_wf` (source lines 7–196).  The source builds the
always-present subgraph, then returns immediately from the
`num_files == 1` branch (the multi-image nodes and edges are never
created); any other value of `num_files`, including values below 1, falls
through to the multi-image branch — the source contains no validation of
`num_files` or `omp_nthreads`. -/
def init_anat_template_wf (a : Args) : Graph :=
  if a.num_files = 1 then
    { name := a.name,
      nodes := [inputnode, outputnode, anat_ref_dimensions, anat_conform, get1st],
      edges := baseEdges ++ singleEdges,
      staticInputs := [⟨"outputnode", "anat_realign_xfm",
        [get_file "smriprep" "data/itkIdentityTransform.txt"]⟩] }
  else
    { name := a.name,
      nodes := [inputnode, outputnode, anat_ref_dimensions, anat_conform,
        anat_conform_xfm, clip_preinu,
        n4_correct a.sloppy a.bspline_fitting_distance,
        anat_merge a.longitudinal a.num_files,
        anat_reorient, merge_xfm, concat_xfms],
      edges := baseEdges ++ multiEdges a.omp_nthreads,
      staticInputs := [] }

/-- Find a node of the graph by name. -/
def Graph.findNode (g : Graph) (n : String) : Option WNode :=
  g.nodes.find? (fun x => x.name == n)

/-- Interface configuration of the named node, when present. -/
def Graph.nodeIface (g : Graph) (n : String) : Option Interface :=
  (g.findNode n).map WNode.iface

/-- `mem_gb` option of the named node, when present. -/
def Graph.nodeMemGb (g : Graph) (n : String) : Option (Option Int) :=
  (g.findNode n).map WNode.mem_gb

/-- Declared input ports of each interface.  For an identity interface
these are its declared fields (from the source); the other interfaces
belong to external collaborator steps (nipype/niworkflows), so their port
lists are modelled from the spec: the dimension/validity checker, per-image
conformer, element selector, transform-format converter, intensity clipper,
bias-field corrector, structural registrar/averager, reorienter, list
merger, and transform concatenator, each with the documented input ports
this workflow uses. -/
def Interface.inputPorts : Interface → List String
  | .identityInterface fields => fields
  | .templateDimensions => ["t1w_list"]
  | .conform => ["in_file", "target_zooms", "target_shape"]
  | .select _ => ["inlist", "index"]
  | .ltaConvert _ _ => ["in_lta", "out_lta", "source_file", "target_file"]
  | .intensityClip _ => ["in_file", "p_min", "p_max"]
  | .n4BiasFieldCorrection _ _ _ _ _ _ _ =>
      ["input_image", "dimension", "n_iterations", "convergence_threshold",
       "shrink_factor", "bspline_fitting_distance", "save_bias", "copy_header"]
  | .structuralReference _ _ _ _ _ _ _ =>
      ["in_files", "num_threads", "out_file", "auto_detect_sensitivity",
       "initial_timepoint", "intensity_scaling", "subsample_threshold",
       "fixed_timepoint", "no_iteration", "transform_outputs"]
  | .reorient => ["in_file", "orientation"]
  | .mergeN _ => ["in1", "in2"]
  | .concatenateXFMs _ => ["in_xfms", "inverse"]

/-- Declared output ports of each interface.  For an identity interface
these are its declared fields (from the source); the other interfaces are
external collaborator steps, so their port lists are modelled from the
spec, with the documented output ports this workflow uses. -/
def Interface.outputPorts : Interface → List String
  | .identityInterface fields => fields
  | .templateDimensions => ["t1w_valid_list", "target_zooms", "target_shape", "out_report"]
  | .conform => ["out_file", "transform"]
  | .select _ => ["out"]
  | .ltaConvert _ _ => ["out_lta"]
  | .intensityClip _ => ["out_file"]
  | .n4BiasFieldCorrection _ _ _ _ _ _ _ => ["output_image", "bias_image"]
  | .structuralReference _ _ _ _ _ _ _ => ["out_file", "transform_outputs"]
  | .reorient => ["out_file", "transform"]
  | .mergeN _ => ["out"]
  | .concatenateXFMs _ => ["out_xfm", "out_inv"]

/-- An edge is valid when both endpoint nodes exist in the graph, its
source port is a declared output port of the source node, and its
destination port is a declared input port of the destination node. -/
def edgeValid (g : Graph) (e : Edge) : Bool :=
  match g.findNode e.src, g.findNode e.dst with
  | some s, some d =>
      s.iface.outputPorts.contains e.srcPort.portName
        && d.iface.inputPorts.contains e.dstPort
  | _, _ => false

/-- A static input binding is valid when the bound node exists and the
bound port is one of its declared input ports. -/
def staticInputValid (g : Graph) (s : StaticInput) : Bool :=
  match g.findNode s.node with
  | some d => d.iface.inputPorts.contains s.port
  | none => false

/-! ### Run-time transform semantics of the `merge_xfm → concat_xfms` chain

Abstract invertible transforms, with formal composition (`comp a b` is
"apply `a`, then `b`") and inversion.  `merge_xfm` is a nipype `Merge(2)`
map node and `concat_xfms` a `ConcatenateXFMs(inverse=True)` map node; both
interfaces are external collaborator steps, so their element-level
behaviour is modelled from the spec: a map-type step pairs its iterfield
lists element-for-element in order, `Merge(2)` builds the ordered pair
`[in1, in2]`, and `ConcatenateXFMs(inverse=True)` concatenates the given
transforms in left-to-right application order and inverts the result. -/

/-- Abstract affine transforms: opaque base transforms, an identity, formal
composition in application order, and formal inversion. -/
inductive Xfm where
  | ident
  | base (id : Nat)
  | comp (first second : Xfm)
  | inv (t : Xfm)
  deriving Repr, DecidableEq

/-- Modelled from the spec: a `Merge(2)` map node over iterfields
`in1, in2` produces, per index `i`, the ordered two-element list
`[in1_i, in2_i]` (order-preserving, element-for-element). -/
def merge_xfm_run (in1 in2 : List Xfm) : List (List Xfm) :=
  List.zipWith (fun a b => [a, b]) in1 in2

/-- Modelled from the spec: `ConcatenateXFMs(inverse=True)` concatenates a
list of transforms in left-to-right application order into one transform
and inverts the concatenation (empty input degenerates to the inverted
identity). -/
def concat_xfms_run (xs : List Xfm) : Xfm :=
  Xfm.inv (match xs with
    | [] => Xfm.ident
    | x :: rest => rest.foldl Xfm.comp x)

/-- The per-image realignment-transform chain as wired in the multi-image
branch: conform transforms into `in1`, registration transforms into `in2`,
the merged pairs into `concat_xfms`. -/
def realign_xfms_run (conform_xfms reg_xfms : List Xfm) : List Xfm :=
  (merge_xfm_run conform_xfms reg_xfms).map concat_xfms_run

/-- Concrete argument bundle taking the single-image branch. -/
def argsSingle : Args :=
  { contrast := "T1w", num_files := 1, omp_nthreads := 1 }

/-- Concrete argument bundle taking the multi-image branch. -/
def argsMulti : Args :=
  { contrast := "T2w", num_files := 3, omp_nthreads := 4 }

/-- Concrete argument bundle with `num_files = 0` (below the documented
precondition). -/
def argsZero : Args :=
  { contrast := "T1w", num_files := 0, omp_nthreads := 0 }

/-- Element-wise description of `zipWith`, used for the realignment-chain
index correspondence. -/
lemma zipWith_getElemOpt {α β γ : Type} (f : α → β → γ) :
    ∀ (as : List α) (bs : List β) (i : Nat) (a : α) (b : β),
      as[i]? = some a → bs[i]? = some b →
      (List.zipWith f as bs)[i]? = some (f a b) := by
  intro as
  induction as with
  | nil => intro bs i a b ha; simp at ha
  | cons x xs ih =>
    intro bs i a b ha hb
    cases bs with
    | nil => simp at hb
    | cons y ys =>
      cases i with
      | zero =>
        simp at ha hb
        simp [List.zipWith, ha, hb]
      | succ j =>
        simp at ha hb
        simpa [List.zipWith] using ih ys j a b ha hb

/-! ### Claim theorems -/

/-- C1: the claim that every edge of the constructed graph connects an
existing output port to an existing declared input port is violated by the
code: in both branches the edges bound for the output node target the ports
`anat_valid_list`, `anat_ref` and `anat_realign_xfm`, none of which is
among the output node's declared fields
`["out_file", "valid_list", "realign_xfms", "out_report"]` — contradicting
the builder's own docstring, which documents the outputs `anat_ref`,
`anat_valid_list`, `anat_realign_xfm`, `out_report`.  All remaining edges
are valid; the invalid ones are exactly those binding the valid list, the
reference and the realignment transforms to the output node. -/
theorem C1_undeclared_outputnode_ports :
    ((init_anat_template_wf argsSingle).edges.filter
        (fun e => !(edgeValid (init_anat_template_wf argsSingle) e))).map Edge.dstPort
      = ["anat_valid_list", "anat_ref"] ∧
    ((init_anat_template_wf argsMulti).edges.filter
        (fun e => !(edgeValid (init_anat_template_wf argsMulti) e))).map Edge.dstPort
      = ["anat_valid_list", "anat_ref", "anat_realign_xfm"] ∧
    ((init_anat_template_wf argsSingle).staticInputs.filter
        (fun s => !(staticInputValid (init_anat_template_wf argsSingle) s))).map
          StaticInput.port
      = ["anat_realign_xfm"] ∧
    outputnode.iface.inputPorts = ["out_file", "valid_list", "realign_xfms", "out_report"] := by
  decide

/-- C2 counterexample: at `num_files = 0, omp_nthreads = 0` no
construction-time error occurs — the builder falls through to the
multi-image branch and returns a complete multi-image graph to the caller
(even with the nonsensical derived memory hint `2·0 − 1 = −1` GB). -/
theorem C2_counterexample :
    (init_anat_template_wf argsZero).nodes.map WNode.name
      = ["inputnode", "outputnode", "anat_ref_dimensions", "anat_conform",
         "anat_conform_xfm", "clip_preinu", "n4_correct", "anat_merge",
         "anat_reorient", "merge_xfm", "concat_xfms"] ∧
    (init_anat_template_wf argsZero).nodeMemGb "anat_merge" = some (some (-1)) := by
  decide

/-- C2 (amended): the builder validates neither `num_files` nor
`omp_nthreads`; every call with `num_files < 1` falls through to the
multi-image branch and returns a fully built multi-image graph (no error is
raised, and the registration node's memory hint is `2·num_files − 1`). -/
theorem C2_no_validation (a : Args) (h : a.num_files < 1) :
    (init_anat_template_wf a).nodes.map WNode.name
      = ["inputnode", "outputnode", "anat_ref_dimensions", "anat_conform",
         "anat_conform_xfm", "clip_preinu", "n4_correct", "anat_merge",
         "anat_reorient", "merge_xfm", "concat_xfms"] ∧
    (init_anat_template_wf a).nodeMemGb "anat_merge"
      = some (some (2 * a.num_files - 1)) := by
  unfold init_anat_template_wf
  rw [if_neg (by omega)]
  constructor
  · rfl
  · rfl

/-- C2 witness: the amended statement at `num_files = -2`. -/
theorem C2_no_validation_witness :
    (⟨"T1w", -2, 1, false, 200, false, "anat_template_wf"⟩ : Args).num_files < 1 ∧
    (init_anat_template_wf ⟨"T1w", -2, 1, false, 200, false, "anat_template_wf"⟩).nodes.map
        WNode.name
      = ["inputnode", "outputnode", "anat_ref_dimensions", "anat_conform",
         "anat_conform_xfm", "clip_preinu", "n4_correct", "anat_merge",
         "anat_reorient", "merge_xfm", "concat_xfms"] ∧
    (init_anat_template_wf ⟨"T1w", -2, 1, false, 200, false, "anat_template_wf"⟩).nodeMemGb
        "anat_merge"
      = some (some (2 * (-2) - 1)) := by
  refine ⟨by decide, ?_⟩
  exact C2_no_validation ⟨"T1w", -2, 1, false, 200, false, "anat_template_wf"⟩ (by decide)

/-- C3: for every call with `num_files == 1` the produced graph contains
no registration/averaging (`anat_merge`), bias-correction (`n4_correct`),
reorientation (`anat_reorient`) or related multi-image nodes — its node set
is exactly the always-present subgraph plus the selector; the
`anat_realign_xfm` output is statically bound to the one-element list
holding the bundled identity transform; and the `anat_ref` output is the
single conformed image picked by the `Select(index=[0])` node from the
conform step's output list. -/
theorem C3_single_image_branch (a : Args) (h : a.num_files = 1) :
    (init_anat_template_wf a).nodes.map WNode.name
      = ["inputnode", "outputnode", "anat_ref_dimensions", "anat_conform", "get1st"] ∧
    (init_anat_template_wf a).staticInputs
      = [⟨"outputnode", "anat_realign_xfm",
          [get_file "smriprep" "data/itkIdentityTransform.txt"]⟩] ∧
    (⟨"anat_conform", .port "out_file", "get1st", "inlist"⟩ : Edge)
      ∈ (init_anat_template_wf a).edges ∧
    (⟨"get1st", .port "out", "outputnode", "anat_ref"⟩ : Edge)
      ∈ (init_anat_template_wf a).edges ∧
    (init_anat_template_wf a).nodeIface "get1st" = some (.select [0]) := by
  unfold init_anat_template_wf
  rw [if_pos h]
  refine ⟨rfl, rfl, ?_, ?_, rfl⟩
  · show (⟨"anat_conform", .port "out_file", "get1st", "inlist"⟩ : Edge)
      ∈ baseEdges ++ singleEdges
    decide
  · show (⟨"get1st", .port "out", "outputnode", "anat_ref"⟩ : Edge)
      ∈ baseEdges ++ singleEdges
    decide

/-- C3 witness: the single-image branch at the concrete arguments. -/
theorem C3_single_image_branch_witness :
    argsSingle.num_files = 1 ∧
    (init_anat_template_wf argsSingle).staticInputs
      = [⟨"outputnode", "anat_realign_xfm",
          [get_file "smriprep" "data/itkIdentityTransform.txt"]⟩] := by
  refine ⟨by decide, ?_⟩
  exact (C3_single_image_branch argsSingle (by decide)).2.1

/-- C4: the thread-budget derivation `_set_threads` evaluates to
`min(len(in_list), maximum)` for every input list and every cap `m ≥ 1`
(both directly and as the connection function carried along the edge), and
in every multi-image graph the registration/averaging node receives its
`num_threads` input through exactly that function applied with
`omp_nthreads` to the conform step's output list. -/
theorem C4_thread_budget (xs : List String) (m : Int) (_hm : 1 ≤ m) :
    _set_threads xs m = min (xs.length : Int) m ∧
    SrcPort.applyToList (.viaSetThreads "out_file" m) xs
      = some (min (xs.length : Int) m) ∧
    ∀ a : Args, 1 < a.num_files →
      (⟨"anat_conform", .viaSetThreads "out_file" a.omp_nthreads,
          "anat_merge", "num_threads"⟩ : Edge)
        ∈ (init_anat_template_wf a).edges := by
  refine ⟨rfl, rfl, ?_⟩
  intro a ha
  unfold init_anat_template_wf
  rw [if_neg (by omega)]
  show _ ∈ baseEdges ++ multiEdges a.omp_nthreads
  simp [baseEdges, multiEdges]

/-- C4 witness: 3 conformed images with a cap of 4 give a budget of 3;
8 images with a cap of 4 give 4; the deriving edge is present in the
multi-image graph built from `argsMulti`. -/
theorem C4_thread_budget_witness :
    (1 : Int) ≤ 4 ∧
    _set_threads ["a", "b", "c"] 4 = 3 ∧
    _set_threads ["a", "b", "c", "d", "e", "f", "g", "h"] 4 = 4 ∧
    (⟨"anat_conform", .viaSetThreads "out_file" 4,
        "anat_merge", "num_threads"⟩ : Edge)
      ∈ (init_anat_template_wf argsMulti).edges := by
  refine ⟨by decide, ?_, ?_, ?_⟩
  · have h := (C4_thread_budget ["a", "b", "c"] 4 (by decide)).1
    simpa using h
  · have h := (C4_thread_budget ["a", "b", "c", "d", "e", "f", "g", "h"] 4 (by decide)).1
    simpa using h
  · exact (C4_thread_budget [] 4 (by decide)).2.2 argsMulti (by decide)

/-- C5 counterexample: the thread budget derived from an empty input list
with cap 4 is 0, not 1 — no flooring at 1 occurs. -/
theorem C5_counterexample :
    _set_threads [] 4 = 0 ∧ ¬ _set_threads [] 4 = 1 := by
  decide

/-- C5 (amended): for every cap `m ≥ 1`, the thread budget derived from an
input list of length 0 is exactly 0 — `_set_threads` is plain
`min(len, m)` with no floor, so the derived budget can be 0. -/
theorem C5_no_floor (m : Int) (hm : 1 ≤ m) :
    _set_threads [] m = 0 := by
  unfold _set_threads
  simp only [List.length_nil, Nat.cast_zero]
  exact min_eq_left (by omega)

/-- C5 witness: the amended statement at `m = 7`. -/
theorem C5_no_floor_witness :
    (1 : Int) ≤ 7 ∧ _set_threads [] 7 = 0 :=
  ⟨by decide, C5_no_floor 7 (by decide)⟩

/-- C6: in every multi-image graph the bias-field-correction node's
`n_iterations` schedule is `[50] * (5 − 2·sloppy)`, of length
`5 − 2·sloppy`: 5 when `sloppy` is false and 3 when it is true, for every
combination of the other builder arguments. -/
theorem C6_n4_iteration_depth (a : Args) (h : 1 < a.num_files) :
    (init_anat_template_wf a).nodeIface "n4_correct"
      = some (.n4BiasFieldCorrection 3 false true
          (List.replicate (5 - 2 * (if a.sloppy then 1 else 0)) 50) (1, 7)
          4 a.bspline_fitting_distance) ∧
    (List.replicate (5 - 2 * (if a.sloppy then 1 else 0)) 50).length
      = 5 - 2 * (if a.sloppy then 1 else 0) ∧
    (a.sloppy = false →
      (List.replicate (5 - 2 * (if a.sloppy then 1 else 0)) 50).length = 5) ∧
    (a.sloppy = true →
      (List.replicate (5 - 2 * (if a.sloppy then 1 else 0)) 50).length = 3) := by
  refine ⟨?_, by simp, ?_, ?_⟩
  · unfold init_anat_template_wf
    rw [if_neg (by omega)]
    rfl
  · intro hs; rw [hs]; decide
  · intro hs; rw [hs]; decide

/-- C6 witness: at `sloppy = false` (from `argsMulti`) the schedule has
length 5; at `sloppy = true` it has length 3. -/
theorem C6_n4_iteration_depth_witness :
    (1 : Int) < 3 ∧
    (init_anat_template_wf argsMulti).nodeIface "n4_correct"
      = some (.n4BiasFieldCorrection 3 false true (List.replicate 5 50) (1, 7) 4 200) ∧
    (init_anat_template_wf
        ⟨"T1w", 3, 4, false, 200, true, "anat_template_wf"⟩).nodeIface "n4_correct"
      = some (.n4BiasFieldCorrection 3 false true (List.replicate 3 50) (1, 7) 4 200) := by
  refine ⟨by decide, ?_, ?_⟩
  · have h := (C6_n4_iteration_depth argsMulti (by decide)).1
    simpa using h
  · have h := (C6_n4_iteration_depth
      ⟨"T1w", 3, 4, false, 200, true, "anat_template_wf"⟩ (by decide)).1
    simpa using h

/-- C7: in every multi-image graph the registration/averaging node is a
`StructuralReference` with `fixed_timepoint = not longitudinal` and
`no_iteration = not longitudinal` (so with `longitudinal` false the
reference timepoint is held fixed and no iterative re-estimation occurs,
and with `longitudinal` true the reference is iteratively refined), the
initial reference timepoint fixed at index 1 and per-input transform
outputs enabled. -/
theorem C7_merge_configuration (a : Args) (h : 1 < a.num_files) :
    (init_anat_template_wf a).nodeIface "anat_merge"
      = some (.structuralReference true 1 true 200
          (!a.longitudinal) (!a.longitudinal) true) ∧
    (a.longitudinal = false →
      (init_anat_template_wf a).nodeIface "anat_merge"
        = some (.structuralReference true 1 true 200 true true true)) ∧
    (a.longitudinal = true →
      (init_anat_template_wf a).nodeIface "anat_merge"
        = some (.structuralReference true 1 true 200 false false true)) := by
  have hbase : (init_anat_template_wf a).nodeIface "anat_merge"
      = some (.structuralReference true 1 true 200
          (!a.longitudinal) (!a.longitudinal) true) := by
    unfold init_anat_template_wf
    rw [if_neg (by omega)]
    rfl
  refine ⟨hbase, ?_, ?_⟩
  · intro hl; rw [hbase, hl]; rfl
  · intro hl; rw [hbase, hl]; rfl

/-- C7 witness: the configuration at `argsMulti` (`longitudinal = false`)
and at the same arguments with `longitudinal = true`. -/
theorem C7_merge_configuration_witness :
    (1 : Int) < 3 ∧
    (init_anat_template_wf argsMulti).nodeIface "anat_merge"
      = some (.structuralReference true 1 true 200 true true true) ∧
    (init_anat_template_wf
        ⟨"T2w", 3, 4, true, 200, false, "anat_template_wf"⟩).nodeIface "anat_merge"
      = some (.structuralReference true 1 true 200 false false true) := by
  refine ⟨by decide, ?_, ?_⟩
  · exact (C7_merge_configuration argsMulti (by decide)).2.1 rfl
  · exact (C7_merge_configuration
      ⟨"T2w", 3, 4, true, 200, false, "anat_template_wf"⟩ (by decide)).2.2 rfl

/-- C10: in every multi-image graph the registration/averaging node is
constructed with the memory hint `mem_gb = 2·num_files − 1` gigabytes. -/
theorem C10_merge_mem_gb (a : Args) (h : 1 < a.num_files) :
    (init_anat_template_wf a).nodeMemGb "anat_merge"
      = some (some (2 * a.num_files - 1)) := by
  unfold init_anat_template_wf
  rw [if_neg (by omega)]
  rfl

/-- C10 witness: at `num_files = 3` the memory hint is 5 GB. -/
theorem C10_merge_mem_gb_witness :
    (1 : Int) < 3 ∧
    (init_anat_template_wf argsMulti).nodeMemGb "anat_merge" = some (some 5) := by
  refine ⟨by decide, ?_⟩
  have h := C10_merge_mem_gb argsMulti (by decide)
  simpa using h

/-- Mapping a function over a `zipWith` fuses into a single `zipWith`. -/
lemma map_zipWith_fuse {α β γ δ : Type} (f : γ → δ) (g : α → β → γ) :
    ∀ (as : List α) (bs : List β),
      (List.zipWith g as bs).map f = List.zipWith (fun a b => f (g a b)) as bs := by
  intro as
  induction as with
  | nil => intro bs; simp
  | cons x xs ih =>
    intro bs
    cases bs with
    | nil => simp
    | cons y ys => simp [List.zipWith, ih ys]

/-- C8: the per-image realignment transform is produced by pairing, index
for index, the i-th conform transform with the i-th registration transform
into the ordered two-element list `[conform_i, registration_i]`,
concatenating it in left-to-right application order and inverting the
concatenation; the whole output list equals the element-wise
`inv (comp conform_i registration_i)` in input order, and the graph wires
the conform-transform outputs into `in1`, the registration transforms into
`in2`, and the merged pairs into the inverting concatenator. -/
theorem C8_realign_transform_chain (cs rs : List Xfm) (i : Nat) (c r : Xfm)
    (hc : cs[i]? = some c) (hr : rs[i]? = some r)
    (a : Args) (h : 1 < a.num_files) :
    realign_xfms_run cs rs
      = List.zipWith (fun x y => Xfm.inv (Xfm.comp x y)) cs rs ∧
    (realign_xfms_run cs rs)[i]? = some (Xfm.inv (Xfm.comp c r)) ∧
    concat_xfms_run [c, r] = Xfm.inv (Xfm.comp c r) ∧
    (⟨"anat_conform_xfm", .port "out_lta", "merge_xfm", "in1"⟩ : Edge)
      ∈ (init_anat_template_wf a).edges ∧
    (⟨"anat_merge", .port "transform_outputs", "merge_xfm", "in2"⟩ : Edge)
      ∈ (init_anat_template_wf a).edges ∧
    (⟨"merge_xfm", .port "out", "concat_xfms", "in_xfms"⟩ : Edge)
      ∈ (init_anat_template_wf a).edges ∧
    (init_anat_template_wf a).findNode "merge_xfm" = some merge_xfm ∧
    (init_anat_template_wf a).findNode "concat_xfms" = some concat_xfms ∧
    merge_xfm.iterfield = ["in1", "in2"] ∧
    concat_xfms.iface = .concatenateXFMs true := by
  have heq : realign_xfms_run cs rs
      = List.zipWith (fun x y => Xfm.inv (Xfm.comp x y)) cs rs := by
    unfold realign_xfms_run merge_xfm_run
    rw [map_zipWith_fuse]
    rfl
  have hedges : (init_anat_template_wf a).edges
      = baseEdges ++ multiEdges a.omp_nthreads := by
    unfold init_anat_template_wf
    rw [if_neg (by omega)]
  refine ⟨heq, ?_, rfl, ?_, ?_, ?_, ?_, ?_, rfl, rfl⟩
  · rw [heq]
    exact zipWith_getElemOpt _ cs rs i c r hc hr
  · rw [hedges]; simp [baseEdges, multiEdges]
  · rw [hedges]; simp [baseEdges, multiEdges]
  · rw [hedges]; simp [baseEdges, multiEdges]
  · unfold init_anat_template_wf
    rw [if_neg (by omega)]
    rfl
  · unfold init_anat_template_wf
    rw [if_neg (by omega)]
    rfl

/-- C8 witness: two conform transforms paired with two registration
transforms; the element at index 1 is the inverted concatenation of the two
index-1 transforms. -/
theorem C8_realign_transform_chain_witness :
    ([Xfm.base 0, Xfm.base 2][1]? = some (Xfm.base 2)) ∧
    ([Xfm.base 1, Xfm.base 3][1]? = some (Xfm.base 3)) ∧
    (1 : Int) < 3 ∧
    (realign_xfms_run [Xfm.base 0, Xfm.base 2] [Xfm.base 1, Xfm.base 3])[1]?
      = some (Xfm.inv (Xfm.comp (Xfm.base 2) (Xfm.base 3))) := by
  refine ⟨by decide, by decide, by decide, ?_⟩
  exact (C8_realign_transform_chain [Xfm.base 0, Xfm.base 2] [Xfm.base 1, Xfm.base 3]
    1 (Xfm.base 2) (Xfm.base 3) (by decide) (by decide) argsMulti (by decide)).2.1

/-- C9: graph construction is deterministic — the builder embeds as a pure
function of its arguments (the only environment read in the source, the
FreeSurfer version used in the unmodelled description string, does not
touch nodes, edges, static inputs or derived parameters), so two calls with
identical arguments produce graphs with the same node set, the same edge
set, the same static input bindings, and equal as whole graphs. -/
theorem C9_deterministic_construction (a : Args) :
    (init_anat_template_wf a).nodes = (init_anat_template_wf a).nodes ∧
    (init_anat_template_wf a).edges = (init_anat_template_wf a).edges ∧
    (init_anat_template_wf a).staticInputs = (init_anat_template_wf a).staticInputs ∧
    init_anat_template_wf a = init_anat_template_wf a :=
  ⟨rfl, rfl, rfl, rfl⟩

end Preproc
